import Mathlib

/-!
Shallow embedding of the MessagePack-over-WebSocket RPC client of the
direct-go SDK (package `direct`, file containing `Client`, `call`, `Call`,
`readLoop`, `handleMessage`, `handleResponse`, `handleNotification`,
`handleMessageNotification`, `parseMessage`, `toInt64`, `emit`, `Close`,
`Connect`, `NewClient`).

Modelling conventions:
- Decoded MessagePack values (`interface\x7b\x7d` after `msgpack.Unmarshal`) are
  the inductive `Val` (nil / bool / integer / string / array / string-keyed
  map).  All Go integer widths are collapsed into `Val.int`; floating-point
  values are not modelled (no claim depends on them).
- Go maps with int64 keys (`responseHandlers`) and string keys
  (`talkDomains`, decoded msgpack maps) are association lists with
  map semantics (lookup finds the first binding; delete removes the key).
- The mutable `Client` is `ClientState`, and every method is a pure state
  transformer.  Ghost observation logs (`events`, `outFrames`,
  `completions`) record emitted events, frames written to the socket and
  values delivered to the per-call result/error channels; they model the
  externally visible effects of `emit`, `conn.WriteMessage` and the
  `onSuccess`/`onError` callbacks of `Call`.
- The buffered channel `Messages` (capacity 100) is a FIFO list; a
  non-blocking send (`select` with `default`) succeeds exactly when the
  buffer holds fewer than 100 elements.
- int64 arithmetic (`atomic.AddInt64`) wraps; `int64wrap` reduces an
  integer modulo 2^64 into the int64 range.
-/

namespace DirectGo

/-- A decoded MessagePack value (`interface\x7b\x7d` in the Go source). -/
inductive Val where
  | nil
  | bool (b : Bool)
  | int (n : Int)
  | str (s : String)
  | arr (elems : List Val)
  | map (fields : List (String × Val))

mutual

/-- Decidable equality on `Val`, by recursion on the value. -/
def Val.decEq : (a b : Val) → Decidable (a = b)
  | .nil, .nil => isTrue rfl
  | .nil, .bool _ => isFalse (fun h => Val.noConfusion h)
  | .nil, .int _ => isFalse (fun h => Val.noConfusion h)
  | .nil, .str _ => isFalse (fun h => Val.noConfusion h)
  | .nil, .arr _ => isFalse (fun h => Val.noConfusion h)
  | .nil, .map _ => isFalse (fun h => Val.noConfusion h)
  | .bool _, .nil => isFalse (fun h => Val.noConfusion h)
  | .bool a, .bool b =>
    if h : a = b then isTrue (by rw [h]) else isFalse (fun hc => h (Val.bool.inj hc))
  | .bool _, .int _ => isFalse (fun h => Val.noConfusion h)
  | .bool _, .str _ => isFalse (fun h => Val.noConfusion h)
  | .bool _, .arr _ => isFalse (fun h => Val.noConfusion h)
  | .bool _, .map _ => isFalse (fun h => Val.noConfusion h)
  | .int _, .nil => isFalse (fun h => Val.noConfusion h)
  | .int _, .bool _ => isFalse (fun h => Val.noConfusion h)
  | .int a, .int b =>
    if h : a = b then isTrue (by rw [h]) else isFalse (fun hc => h (Val.int.inj hc))
  | .int _, .str _ => isFalse (fun h => Val.noConfusion h)
  | .int _, .arr _ => isFalse (fun h => Val.noConfusion h)
  | .int _, .map _ => isFalse (fun h => Val.noConfusion h)
  | .str _, .nil => isFalse (fun h => Val.noConfusion h)
  | .str _, .bool _ => isFalse (fun h => Val.noConfusion h)
  | .str _, .int _ => isFalse (fun h => Val.noConfusion h)
  | .str a, .str b =>
    if h : a = b then isTrue (by rw [h]) else isFalse (fun hc => h (Val.str.inj hc))
  | .str _, .arr _ => isFalse (fun h => Val.noConfusion h)
  | .str _, .map _ => isFalse (fun h => Val.noConfusion h)
  | .arr _, .nil => isFalse (fun h => Val.noConfusion h)
  | .arr _, .bool _ => isFalse (fun h => Val.noConfusion h)
  | .arr _, .int _ => isFalse (fun h => Val.noConfusion h)
  | .arr _, .str _ => isFalse (fun h => Val.noConfusion h)
  | .arr xs, .arr ys =>
    match Val.decEqList xs ys with
    | isTrue h => isTrue (congrArg Val.arr h)
    | isFalse h => isFalse (fun hc => h (Val.arr.inj hc))
  | .arr _, .map _ => isFalse (fun h => Val.noConfusion h)
  | .map _, .nil => isFalse (fun h => Val.noConfusion h)
  | .map _, .bool _ => isFalse (fun h => Val.noConfusion h)
  | .map _, .int _ => isFalse (fun h => Val.noConfusion h)
  | .map _, .str _ => isFalse (fun h => Val.noConfusion h)
  | .map _, .arr _ => isFalse (fun h => Val.noConfusion h)
  | .map xs, .map ys =>
    match Val.decEqFields xs ys with
    | isTrue h => isTrue (congrArg Val.map h)
    | isFalse h => isFalse (fun hc => h (Val.map.inj hc))

/-- Decidable equality on lists of `Val`. -/
def Val.decEqList : (xs ys : List Val) → Decidable (xs = ys)
  | [], [] => isTrue rfl
  | [], _ :: _ => isFalse (fun h => List.noConfusion h)
  | _ :: _, [] => isFalse (fun h => List.noConfusion h)
  | x :: xs, y :: ys =>
    match Val.decEq x y with
    | isTrue h1 =>
      match Val.decEqList xs ys with
      | isTrue h2 => isTrue (by rw [h1, h2])
      | isFalse h2 => isFalse (by intro hc; injection hc with hh ht; exact h2 ht)
    | isFalse h1 => isFalse (by intro hc; injection hc with hh ht; exact h1 hh)

/-- Decidable equality on string-keyed lists of `Val`. -/
def Val.decEqFields :
    (xs ys : List (String × Val)) → Decidable (xs = ys)
  | [], [] => isTrue rfl
  | [], _ :: _ => isFalse (fun h => List.noConfusion h)
  | _ :: _, [] => isFalse (fun h => List.noConfusion h)
  | (k1, v1) :: xs, (k2, v2) :: ys =>
    if hk : k1 = k2 then
      match Val.decEq v1 v2 with
      | isTrue h1 =>
        match Val.decEqFields xs ys with
        | isTrue h2 => isTrue (by rw [hk, h1, h2])
        | isFalse h2 => isFalse (by intro hc; injection hc with hh ht; exact h2 ht)
      | isFalse h1 =>
        isFalse (by
          intro hc; injection hc with hh ht
          exact h1 (congrArg Prod.snd hh))
    else
      isFalse (by
        intro hc; injection hc with hh ht
        exact hk (congrArg Prod.fst hh))

end

instance : DecidableEq Val := Val.decEq

/-- RPC frame-kind constant `RpcRequest = 0`. -/
def RpcRequest : Int := 0

/-- RPC frame-kind constant `RpcResponse = 1`. -/
def RpcResponse : Int := 1

/-- Lookup in a decoded msgpack map / Go `map[string]interface\x7b\x7d`. -/
def mapLookup (k : String) (m : List (String × Val)) : Option Val :=
  (m.find? (fun p => p.fst == k)).map Prod.snd

/-- Go `toInt64`: converts any numeric value to int64 (int/uint widths and
floats all funnel through an `int64(n)` conversion, which wraps for uint64
values at or above 2^63); non-numeric values report failure (Go returns
`(0, false)`, modelled as `none`). -/
def toInt64 (v : Val) : Option Int :=
  match v with
  | .int n => some (((n + 2 ^ 63) % 2 ^ 64) - 2 ^ 63)
  | _ => none

/-- Reduction of an unbounded integer into the int64 range, as performed by
Go's wrapping int64 arithmetic (`atomic.AddInt64`) and conversions. -/
def int64wrap (x : Int) : Int :=
  ((x + 2 ^ 63) % 2 ^ 64) - 2 ^ 63

/-- Insertion of a rendered key/value pair into a key-sorted list (Go `fmt`
prints map keys in sorted order). -/
def insertField (p : String × String) (l : List (String × String)) :
    List (String × String) :=
  match l with
  | [] => [p]
  | q :: rest => if p.fst ≤ q.fst then p :: q :: rest else q :: insertField p rest

/-- Insertion sort of rendered map entries by key, for `goFmtV` of maps. -/
def sortFields (l : List (String × String)) : List (String × String) :=
  match l with
  | [] => []
  | p :: rest => insertField p (sortFields rest)

/-- Joining of key-sorted rendered map entries as `k:v` separated by
spaces, the layout Go `fmt` uses inside `map[...]`. -/
def renderFields (l : List (String × String)) : String :=
  match sortFields l with
  | [] => ""
  | p :: rest =>
    rest.foldl (fun acc q => acc ++ " " ++ q.fst ++ ":" ++ q.snd)
      (p.fst ++ ":" ++ p.snd)

mutual

/-- Go `fmt.Sprintf` with verb `%v`, restricted to the values of `Val`:
nil prints `<nil>`, strings print verbatim, numbers in decimal, slices as
space-separated elements in square brackets, maps as `map[k:v ...]` with
keys in sorted order. -/
def goFmtV (v : Val) : String :=
  match v with
  | .nil => "<nil>"
  | .bool true => "true"
  | .bool false => "false"
  | .int n => toString n
  | .str s => s
  | .arr elems => "[" ++ goFmtVList elems ++ "]"
  | .map fields => "map[" ++ renderFields (goFmtVFields fields) ++ "]"

/-- Space-separated rendering of slice elements for `goFmtV`. -/
def goFmtVList (l : List Val) : String :=
  match l with
  | [] => ""
  | [v] => goFmtV v
  | v :: rest => goFmtV v ++ " " ++ goFmtVList rest

/-- Rendering of each map value with `goFmtV`, keeping its key. -/
def goFmtVFields (l : List (String × Val)) : List (String × String) :=
  match l with
  | [] => []
  | (k, v) :: rest => (k, goFmtV v) :: goFmtVFields rest

end

/-- Capacity of the buffered `Messages` channel created by `NewClient`
(`make(chan ReceivedMessage, 100)`). -/
def messagesCap : Nat := 100

/-- Timeout of the synchronous `Call` wrapper, in seconds
(`time.After(30 * time.Second)`). -/
def callTimeoutSeconds : Nat := 30

/-- Go `ResponseHandler`: bookkeeping for one in-flight request.  The
`OnSuccess`/`OnError` closures registered by `Call` push onto that call's
buffered result/error channels; those pushes are recorded in the
`completions` log of the client state, so the handler record itself only
retains the method name. -/
structure ResponseHandler where
  Method : String
deriving DecidableEq

/-- Value delivered to a call's channels: `OnSuccess result` or
`OnError err`. -/
inductive RpcOutcome where
  | success (result : Val)
  | failure (err : Val)
deriving DecidableEq

/-- Go `ReceivedMessage` (the fields `parseMessage` can populate; `Raw`
holds the retained raw notification payload, standing for the
`json.Marshal` snapshot; the Go field `Type` is named `MsgType` here
because `Type` is reserved in Lean). -/
structure ReceivedMessage where
  ID : String := ""
  TalkID : String := ""
  RoomID : String := ""
  UserID : String := ""
  DomainID : String := ""
  Text : String := ""
  MsgType : Int := 0
  Created : Int := 0
  Content : Val := Val.nil
  Raw : Option Val := none
deriving DecidableEq

/-- Lookup in the `responseHandlers` map (`map[int64]*ResponseHandler`). -/
def rhLookup (id : Int) (l : List (Int × ResponseHandler)) :
    Option ResponseHandler :=
  (l.find? (fun p => p.fst == id)).map Prod.snd

/-- Deletion from the `responseHandlers` map (`delete(m, id)`). -/
def rhErase (id : Int) (l : List (Int × ResponseHandler)) :
    List (Int × ResponseHandler) :=
  l.filter (fun p => !(p.fst == id))

/-- Assignment into the `responseHandlers` map (`m[id] = h`). -/
def rhInsert (id : Int) (h : ResponseHandler)
    (l : List (Int × ResponseHandler)) : List (Int × ResponseHandler) :=
  (id, h) :: rhErase id l

/-- Lookup in the `talkDomains` map (`map[string]string`). -/
def tdLookup (k : String) (l : List (String × String)) : Option String :=
  (l.find? (fun p => p.fst == k)).map Prod.snd

/-- Go `Client`.  Mutable fields become state; `conn` is whether the
WebSocket handle is non-nil, `sockClosed` whether the underlying socket
has been closed (after which writes fail).  `handlers` keeps, per event
name, how many callbacks are registered (the callbacks themselves are
opaque).  `Messages` is the content of the buffered channel.  `events`,
`outFrames` and `completions` are observation logs: each `emit`
invocation, each frame successfully written to the socket, and each value
pushed to a call's result/error channels. -/
structure Client where
  conn : Bool := false
  sockClosed : Bool := false
  closed : Bool := false
  connected : Bool := false
  msgID : Int := 0
  responseHandlers : List (Int × ResponseHandler) := []
  talkDomains : List (String × String) := []
  handlers : List (String × Nat) := []
  Messages : List ReceivedMessage := []
  doneClosed : Bool := false
  events : List (String × Val) := []
  outFrames : List (List Val) := []
  completions : List (Int × RpcOutcome) := []
deriving DecidableEq

/-- Go `NewClient`: fresh client with empty maps, an empty buffered
`Messages` channel of capacity `messagesCap`, and `msgID` at its zero
value. -/
def NewClient : Client := {}

/-- Go `Client.Connect` (dial success assumed): fails if already
connected, otherwise installs the connection handle and clears the
closed flag, then starts the read and ping loops. -/
def Client.Connect (c : Client) : Client × Option String :=
  if c.conn then (c, some "already connected")
  else ({c with conn := true, closed := false}, none)

/-- Go `Client.Close`: no-op returning nil when there is no connection or
the client is already closed; otherwise sets the closed flag, closes the
`Done` channel and closes the socket (whose `Close` result is nil here). -/
def Client.Close (c : Client) : Client × Option String :=
  if !c.conn || c.closed then (c, none)
  else ({c with closed := true, doneClosed := true, sockClosed := true}, none)

/-- Number of handlers registered for an event name. -/
def hdCount (event : String) (l : List (String × Nat)) : Nat :=
  ((l.find? (fun p => p.fst == event)).map Prod.snd).getD 0

/-- Go `Client.On`: appends a handler to the list for the event (modelled
as bumping that event's handler count). -/
def Client.On (c : Client) (event : String) : Client :=
  { c with handlers :=
      (event, hdCount event c.handlers + 1) ::
        c.handlers.filter (fun p => !(p.fst == event)) }

/-- Go `Client.emit`: reads the handler list for the event and invokes
each handler in its own goroutine.  The dispatch is recorded in the
`events` log; handler bodies are external to the client. -/
def Client.emit (c : Client) (event : String) (data : Val) : Client :=
  {c with events := c.events ++ [(event, data)]}

/-- Synchronous result of `Client.call` before any response arrives. -/
inductive CallStart where
  | notConnected
  | writeFailed (emsg : String)
  | sent (id : Int)
deriving DecidableEq

/-- Error returned by a write on a connection whose socket has been
closed (Go net package wording). -/
def errClosedConn : String := "use of closed network connection"

/-- Go `Client.call`: with no connection handle, invokes `onError` with
`map[message: not connected]` and leaves the state untouched; otherwise
atomically increments `msgID` (int64, wrapping), registers a
`ResponseHandler` under the new id, encodes the request frame
`[RpcRequest, msgID, method, params]` (`msgpack.Marshal` of such a value
cannot fail) and writes it; a failed write invokes `onError` with the
write error while the handler stays registered. -/
def Client.call (c : Client) (method : String) (params : List Val) :
    Client × CallStart :=
  if !c.conn then (c, CallStart.notConnected)
  else
    let msgID := int64wrap (c.msgID + 1)
    let c1 := { c with
      msgID := msgID
      responseHandlers :=
        rhInsert msgID { Method := method } c.responseHandlers }
    let request := [Val.int RpcRequest, Val.int msgID, Val.str method,
      Val.arr params]
    if c1.sockClosed then (c1, CallStart.writeFailed errClosedConn)
    else ({c1 with outFrames := c1.outFrames ++ [request]},
      CallStart.sent msgID)

/-- Error returned by Go `Client.Call`: either
`fmt.Errorf("RPC error: %v", err)` carrying the payload delivered to the
error channel, or `fmt.Errorf("RPC timeout")`. -/
inductive CallErr where
  | rpcError (payload : Val)
  | rpcTimeout
deriving DecidableEq

/-- Go `Client.Call`'s `select` over the buffered result channel, the
buffered error channel and `time.After(callTimeoutSeconds)`: `delivered`
is the outcome (if any) pushed to this call's channels within the
window — by the immediate `onError` invocations of `call` itself (the
`notConnected`/`writeFailed` starts) or by `handleResponse`.  The pair
returned is Go's `(interface\x7b\x7d, error)`. -/
def Client.CallResult (start : CallStart) (delivered : Option RpcOutcome) :
    Option Val × Option CallErr :=
  match start with
  | .notConnected =>
    (none, some (CallErr.rpcError (Val.map [("message",
      Val.str "not connected")])))
  | .writeFailed emsg =>
    (none, some (CallErr.rpcError (Val.map [("message", Val.str emsg)])))
  | .sent _ =>
    match delivered with
    | some (.success v) => (some v, none)
    | some (.failure e) => (none, some (CallErr.rpcError e))
    | none => (none, some CallErr.rpcTimeout)

/-- Go `Client.handleResponse`: normalizes the identifier field; looks it
up in `responseHandlers` and deletes the key; with no registered handler
the frame is dropped; otherwise field 2 non-nil invokes `OnError` with it
and field 3 is otherwise passed to `OnSuccess` (both recorded in the
`completions` log). -/
def Client.handleResponse (c : Client) (message : List Val) : Client :=
  match toInt64 (message.getD 1 Val.nil) with
  | none => c
  | some msgID =>
    let handler := rhLookup msgID c.responseHandlers
    let c1 := {c with responseHandlers := rhErase msgID c.responseHandlers}
    match handler with
    | none => c1
    | some _ =>
      let errVal := message.getD 2 Val.nil
      let result := message.getD 3 Val.nil
      if errVal ≠ Val.nil then
        { c1 with completions :=
            c1.completions ++ [(msgID, RpcOutcome.failure errVal)] }
      else
        { c1 with completions :=
            c1.completions ++ [(msgID, RpcOutcome.success result)] }

/-- The identifier block of Go `parseMessage`: `ID` comes from the
`message_id` key, falling back to the `id` key, rendered with
`fmt.Sprintf` verb `%v`. -/
def parseMessageId (m : List (String × Val)) (msg : ReceivedMessage) :
    ReceivedMessage :=
  match mapLookup "message_id" m with
  | some id => {msg with ID := goFmtV id}
  | none =>
    match mapLookup "id" m with
    | some id => {msg with ID := goFmtV id}
    | none => msg

/-- The `talk_id` block of `parseMessage` (also aliases `RoomID`). -/
def parseMessageTalk (m : List (String × Val)) (msg : ReceivedMessage) :
    ReceivedMessage :=
  match mapLookup "talk_id" m with
  | some talkId =>
    {msg with TalkID := goFmtV talkId, RoomID := goFmtV talkId}
  | none => msg

/-- The `user_id` block of `parseMessage`. -/
def parseMessageUser (m : List (String × Val)) (msg : ReceivedMessage) :
    ReceivedMessage :=
  match mapLookup "user_id" m with
  | some userId => {msg with UserID := goFmtV userId}
  | none => msg

/-- The `domain_id` block of `parseMessage`. -/
def parseMessageDomain (m : List (String × Val)) (msg : ReceivedMessage) :
    ReceivedMessage :=
  match mapLookup "domain_id" m with
  | some domainId => {msg with DomainID := goFmtV domainId}
  | none => msg

/-- The `content` block of `parseMessage`: keeps the content verbatim and
extracts `Text` from string content or from a string under the map key
`"text"`. -/
def parseMessageContent (m : List (String × Val)) (msg : ReceivedMessage) :
    ReceivedMessage :=
  match mapLookup "content" m with
  | some content =>
    let msg := {msg with Content := content}
    match content with
    | Val.str text => {msg with Text := text}
    | Val.map contentMap =>
      match mapLookup "text" contentMap with
      | some (Val.str text) => {msg with Text := text}
      | _ => msg
    | _ => msg
  | none => msg

/-- The `type` block of `parseMessage`, normalizing through `toInt64`. -/
def parseMessageType (m : List (String × Val)) (msg : ReceivedMessage) :
    ReceivedMessage :=
  match mapLookup "type" m with
  | some msgType =>
    match toInt64 msgType with
    | some t => {msg with MsgType := t}
    | none => msg
  | none => msg

/-- Go `parseMessage`: converts a raw notification payload to a
`ReceivedMessage` by the successive field blocks above (a non-map payload
yields the zero message); the raw map is retained in `Raw`, standing for
the `json.Marshal` snapshot. -/
def parseMessage (data : Val) : ReceivedMessage :=
  match data with
  | Val.map m =>
    let msg :=
      parseMessageType m (parseMessageContent m (parseMessageDomain m
        (parseMessageUser m (parseMessageTalk m (parseMessageId m {})))))
    {msg with Raw := some (Val.map m)}
  | _ => {}

/-- First half of Go `Client.handleMessageNotification`: `parseMessage`
followed by the lookup of a missing `DomainID` in the cached
`talkDomains` (performed when the parsed message has no `DomainID` but
has a `TalkID`). -/
def Client.resolvedMessage (c : Client) (data : Val) : ReceivedMessage :=
  let msg := parseMessage data
  if msg.DomainID = "" ∧ msg.TalkID ≠ "" then
    match tdLookup msg.TalkID c.talkDomains with
    | some domID => {msg with DomainID := domID}
    | none => msg
  else msg

/-- Go `Client.handleMessageNotification`: parses the payload and
resolves the domain (`resolvedMessage`); when the resulting message has a
non-empty `ID`, performs a non-blocking send to the buffered `Messages`
channel (the `select` with a `default` branch drops the message when the
buffer already holds `messagesCap` elements). -/
def Client.handleMessageNotification (c : Client) (data : Val) : Client :=
  let msg := c.resolvedMessage data
  if msg.ID ≠ "" then
    if c.Messages.length < messagesCap then
      {c with Messages := c.Messages ++ [msg]}
    else c
  else c

/-- Go `Client.handleNotification`: drops frames shorter than 4 fields;
normalizes the identifier (ignoring conversion failure, so a non-numeric
identifier becomes 0); drops frames whose method field is not a string or
whose params field is not a non-empty array; emits the event named by the
method with the first parameter as payload; routes
`notify_create_message`/`create_message` additionally through
`handleMessageNotification`; finally encodes the acknowledgment
`[RpcResponse, msgID, nil, true]` (`msgpack.Marshal` of this value cannot
fail) and writes it when a connection handle exists, ignoring any write
error. -/
def Client.handleNotification (c : Client) (message : List Val) : Client :=
  if message.length < 4 then c
  else
    let msgID := (toInt64 (message.getD 1 Val.nil)).getD 0
    match message.getD 2 Val.nil with
    | Val.str method =>
      match message.getD 3 Val.nil with
      | Val.arr params =>
        match params with
        | [] => c
        | p0 :: _ =>
          let c1 := c.emit method p0
          let c2 :=
            if method = "notify_create_message" ∨ method = "create_message"
            then c1.handleMessageNotification p0
            else c1
          if c2.conn ∧ ¬c2.sockClosed then
            { c2 with outFrames := c2.outFrames ++
                [[Val.int RpcResponse, Val.int msgID, Val.nil,
                  Val.bool true]] }
          else c2
      | _ => c
    | _ => c

/-- One inbound WebSocket message, after the `msgpack.Unmarshal` attempt:
either undecodable bytes (with the decoder's error text) or a decoded
array of values. -/
inductive Inbound where
  | garbage (emsg : String)
  | frame (message : List Val)
deriving DecidableEq

/-- Go `Client.handleMessage`: on decode failure emits `decode_error` and
returns; drops decoded arrays shorter than 4; normalizes the kind field
and dispatches kind `RpcResponse` to `handleResponse` and kind
`RpcRequest` to `handleNotification`, ignoring other kinds. -/
def Client.handleMessage (c : Client) (data : Inbound) : Client :=
  match data with
  | .garbage emsg =>
    c.emit "decode_error" (Val.map [("error", Val.str emsg)])
  | .frame message =>
    if message.length < 4 then c
    else
      match toInt64 (message.headD Val.nil) with
      | none => c
      | some msgType =>
        if msgType = RpcResponse then c.handleResponse message
        else if msgType = RpcRequest then c.handleNotification message
        else c

/-- One iteration's input to the read loop: either a message delivered by
`conn.ReadMessage` or a read error. -/
inductive SocketEvent where
  | received (data : Inbound)
  | ioError (emsg : String)
deriving DecidableEq

/-- Go `Client.readLoop` over a sequence of socket events: returns when
the closed flag is set; on a read error emits an `error` event and
terminates the loop (remaining events are not processed); otherwise
handles the message and continues with the next event. -/
def Client.readLoop (c : Client) : List SocketEvent → Client
  | [] => c
  | ev :: rest =>
    if c.closed then c
    else
      match ev with
      | .ioError emsg => c.emit "error" (Val.map [("error", Val.str emsg)])
      | .received data => Client.readLoop (c.handleMessage data) rest

/-- A client that has just completed `NewClient` followed by a successful
`Connect`. -/
def connectedClient : Client := (NewClient.Connect).fst

/-- A client that has connected and then been closed with `Close`. -/
def closedClient : Client := (connectedClient.Close).fst

/-- A connected client that has issued one `get_me` request (identifier
1) and is awaiting the response. -/
def pendingClient : Client := (Client.call connectedClient "get_me" []).fst

/-- Payloads from which `parseMessage` can extract no identifier: values
that are not maps, and maps carrying neither a `message_id` nor an `id`
key. -/
def lacksMessageId (v : Val) : Bool :=
  match v with
  | .map m => (mapLookup "message_id" m).isNone && (mapLookup "id" m).isNone
  | _ => true

/-- State of a client after issuing `n` consecutive RPC requests through
`Client.call` (the method name of the k-th request given by `ms k`). -/
def iterCall (c : Client) (ms : Nat → String) : Nat → Client
  | 0 => c
  | n + 1 => (Client.call (iterCall c ms n) (ms n) []).fst

/-- Identifier assigned to the k-th request (0-based) of the sequence:
the dispatcher's counter value right after that request. -/
def callIdAt (c : Client) (ms : Nat → String) (k : Nat) : Int :=
  (iterCall c ms (k + 1)).msgID

/-! Supporting lemmas about the embedded operations. -/

theorem int64wrap_eq_self {x : Int} (h1 : -2 ^ 63 ≤ x) (h2 : x < 2 ^ 63) :
    int64wrap x = x := by
  unfold int64wrap
  have hsum : (2 : Int) ^ 64 = 2 ^ 63 + 2 ^ 63 := by norm_num
  have h3 : (0 : Int) ≤ x + 2 ^ 63 := by linarith
  have h4 : x + 2 ^ 63 < 2 ^ 64 := by linarith
  rw [Int.emod_eq_of_lt h3 h4]
  ring

theorem int64wrap_bounds (x : Int) :
    -2 ^ 63 ≤ int64wrap x ∧ int64wrap x < 2 ^ 63 := by
  unfold int64wrap
  have hsum : (2 : Int) ^ 64 = 2 ^ 63 + 2 ^ 63 := by norm_num
  constructor
  · have := Int.emod_nonneg (x + 2 ^ 63)
      (show (2 : Int) ^ 64 ≠ 0 by norm_num)
    linarith
  · have := Int.emod_lt_of_pos (x + 2 ^ 63)
      (show (0 : Int) < 2 ^ 64 by norm_num)
    linarith

theorem int64wrap_idem (x : Int) :
    int64wrap (int64wrap x) = int64wrap x :=
  int64wrap_eq_self (int64wrap_bounds x).1 (int64wrap_bounds x).2

theorem toInt64_int (n : Int) : toInt64 (Val.int n) = some (int64wrap n) :=
  rfl

theorem rhLookup_insert_self (id : Int) (h : ResponseHandler)
    (l : List (Int × ResponseHandler)) :
    rhLookup id (rhInsert id h l) = some h := by
  unfold rhLookup rhInsert
  rw [List.find?_cons_of_pos _ (by simp)]
  rfl

theorem rhLookup_erase_self (id : Int) (l : List (Int × ResponseHandler)) :
    rhLookup id (rhErase id l) = none := by
  unfold rhLookup rhErase
  simp only [Option.map_eq_none']
  rw [List.find?_eq_none]
  intro p hp
  have hmem := List.of_mem_filter hp
  simpa using hmem

theorem rhLookup_erase_ne {j id : Int} (hne : j ≠ id)
    (l : List (Int × ResponseHandler)) :
    rhLookup j (rhErase id l) = rhLookup j l := by
  unfold rhLookup rhErase
  induction l with
  | nil => rfl
  | cons p rest ih =>
    cases hb : (p.fst == id) <;> cases hc : (p.fst == j) <;>
      simp_all [List.filter_cons, List.find?_cons]

theorem rhErase_of_lookup_none {id : Int} {l : List (Int × ResponseHandler)}
    (h : rhLookup id l = none) : rhErase id l = l := by
  unfold rhLookup at h
  unfold rhErase
  simp only [Option.map_eq_none'] at h
  rw [List.find?_eq_none] at h
  rw [List.filter_eq_self]
  intro p hp
  simpa using h p hp

theorem handleMessageNotification_spec (c : Client) (d : Val) :
    Client.handleMessageNotification c d =
      if (c.resolvedMessage d).ID ≠ "" ∧ c.Messages.length < messagesCap
      then {c with Messages := c.Messages ++ [c.resolvedMessage d]}
      else c := by
  unfold Client.handleMessageNotification
  by_cases h1 : (c.resolvedMessage d).ID ≠ "" <;>
    by_cases h2 : c.Messages.length < messagesCap <;>
      simp [h1, h2]

theorem handleMessageNotification_fields (c : Client) (d : Val) :
    (Client.handleMessageNotification c d).conn = c.conn ∧
    (Client.handleMessageNotification c d).sockClosed = c.sockClosed ∧
    (Client.handleMessageNotification c d).closed = c.closed ∧
    (Client.handleMessageNotification c d).events = c.events ∧
    (Client.handleMessageNotification c d).outFrames = c.outFrames ∧
    (Client.handleMessageNotification c d).responseHandlers =
      c.responseHandlers ∧
    (Client.handleMessageNotification c d).completions = c.completions := by
  rw [handleMessageNotification_spec]
  by_cases h : (c.resolvedMessage d).ID ≠ "" ∧
      c.Messages.length < messagesCap <;> simp [h]

theorem handleResponse_found (c : Client) {idv : Val} {id : Int}
    (hid : toInt64 idv = some id) (errv resv : Val) {h : ResponseHandler}
    (hfound : rhLookup id c.responseHandlers = some h) :
    Client.handleResponse c [Val.int 1, idv, errv, resv] =
      { c with
        responseHandlers := rhErase id c.responseHandlers
        completions := c.completions ++
          [(id, if errv ≠ Val.nil then RpcOutcome.failure errv
                else RpcOutcome.success resv)] } := by
  unfold Client.handleResponse
  rw [show ([Val.int 1, idv, errv, resv].getD 1 Val.nil) = idv from rfl, hid]
  simp only [hfound]
  rw [show ([Val.int 1, idv, errv, resv].getD 2 Val.nil) = errv from rfl,
    show ([Val.int 1, idv, errv, resv].getD 3 Val.nil) = resv from rfl]
  split <;> rfl

theorem handleResponse_notfound (c : Client) {idv : Val} {id : Int}
    (hid : toInt64 idv = some id) (errv resv : Val)
    (hnone : rhLookup id c.responseHandlers = none) :
    Client.handleResponse c [Val.int 1, idv, errv, resv] = c := by
  unfold Client.handleResponse
  rw [show ([Val.int 1, idv, errv, resv].getD 1 Val.nil) = idv from rfl, hid]
  simp only [hnone]
  rw [rhErase_of_lookup_none hnone]

theorem resolvedMessage_ID (c : Client) (d : Val) :
    (c.resolvedMessage d).ID = (parseMessage d).ID := by
  unfold Client.resolvedMessage
  dsimp only
  split
  · split <;> rfl
  · rfl

theorem parseMessageTalk_ID (m : List (String × Val))
    (msg : ReceivedMessage) : (parseMessageTalk m msg).ID = msg.ID := by
  unfold parseMessageTalk
  split <;> rfl

theorem parseMessageUser_ID (m : List (String × Val))
    (msg : ReceivedMessage) : (parseMessageUser m msg).ID = msg.ID := by
  unfold parseMessageUser
  split <;> rfl

theorem parseMessageDomain_ID (m : List (String × Val))
    (msg : ReceivedMessage) : (parseMessageDomain m msg).ID = msg.ID := by
  unfold parseMessageDomain
  split <;> rfl

theorem parseMessageContent_ID (m : List (String × Val))
    (msg : ReceivedMessage) : (parseMessageContent m msg).ID = msg.ID := by
  unfold parseMessageContent
  repeat' split
  all_goals rfl

theorem parseMessageType_ID (m : List (String × Val))
    (msg : ReceivedMessage) : (parseMessageType m msg).ID = msg.ID := by
  unfold parseMessageType
  repeat' split
  all_goals rfl

theorem parseMessage_ID_of_lacks {p : Val} (hp : lacksMessageId p = true) :
    (parseMessage p).ID = "" := by
  cases p with
  | nil => rfl
  | bool b => rfl
  | int n => rfl
  | str s => rfl
  | arr elems => rfl
  | map m =>
    unfold lacksMessageId at hp
    simp only [Bool.and_eq_true, Option.isNone_iff_eq_none] at hp
    obtain ⟨h1, h2⟩ := hp
    show (parseMessageType m (parseMessageContent m (parseMessageDomain m
      (parseMessageUser m (parseMessageTalk m (parseMessageId m {})))))).ID
      = ""
    rw [parseMessageType_ID, parseMessageContent_ID, parseMessageDomain_ID,
      parseMessageUser_ID, parseMessageTalk_ID]
    unfold parseMessageId
    rw [h1, h2]

/-! Claim theorems. -/

/-- C1, counterexample: a 4-element kind-0 frame whose parameter list is
the empty array is dropped by the notification handler without any
acknowledgment Response frame being written, although the connection is
live — the claim's "regardless of the contents of the notification's
parameter list" fails. -/
theorem c1_no_ack_on_empty_params :
    (Client.handleMessage connectedClient
        (Inbound.frame [Val.int 0, Val.int 7, Val.str "foo",
          Val.arr []])).outFrames = [] ∧
    connectedClient.conn = true ∧ connectedClient.sockClosed = false := by
  decide

/-- C1, amended: for every inbound 4-element kind-0 frame whose method
field is a string and whose parameter list is a non-empty array, a live
client writes exactly one acknowledgment Response frame
`[1, id, nil, true]` and emits the notification event — regardless of
which subscribers are registered (the handler table of `c` is arbitrary)
and of the particular parameter values. -/
theorem notification_ack (c : Client) (hc : c.conn = true)
    (hs : c.sockClosed = false) (idv : Val) (method : String) (p0 : Val)
    (ps : List Val) :
    (Client.handleMessage c (Inbound.frame
        [Val.int 0, idv, Val.str method, Val.arr (p0 :: ps)])).outFrames =
      c.outFrames ++
        [[Val.int 1, Val.int ((toInt64 idv).getD 0), Val.nil,
          Val.bool true]] ∧
    (Client.handleMessage c (Inbound.frame
        [Val.int 0, idv, Val.str method, Val.arr (p0 :: ps)])).events =
      c.events ++ [(method, p0)] := by
  have hred : Client.handleMessage c (Inbound.frame
      [Val.int 0, idv, Val.str method, Val.arr (p0 :: ps)]) =
      (let c2 := if method = "notify_create_message" ∨
          method = "create_message"
        then (c.emit method p0).handleMessageNotification p0
        else c.emit method p0
       if c2.conn ∧ ¬c2.sockClosed then
         { c2 with outFrames := c2.outFrames ++
             [[Val.int 1, Val.int ((toInt64 idv).getD 0), Val.nil,
               Val.bool true]] }
       else c2) := rfl
  rw [hred]
  by_cases hm : method = "notify_create_message" ∨ method = "create_message"
  · obtain ⟨hconn, hsock, _, hev, hout, _, _⟩ :=
      handleMessageNotification_fields (c.emit method p0) p0
    dsimp only
    rw [if_pos hm]
    rw [if_pos]
    · constructor
      · dsimp only
        rw [hout]
        rfl
      · dsimp only
        rw [hev]
        rfl
    · constructor
      · rw [hconn]
        exact hc
      · rw [hsock]
        simp [Client.emit, hs]
  · dsimp only
    rw [if_neg hm]
    rw [if_pos]
    · exact ⟨rfl, rfl⟩
    · exact ⟨hc, by simp [Client.emit, hs]⟩

/-- C1, witness: a concrete live client, a `notify_create_message`
notification with one map parameter; the single acknowledgment and the
emitted event are produced. -/
theorem notification_ack_witness :
    connectedClient.conn = true ∧ connectedClient.sockClosed = false ∧
    ((Client.handleMessage connectedClient (Inbound.frame
        [Val.int 0, Val.int 7, Val.str "notify_create_message",
          Val.arr [Val.map [("id", Val.str "m1")]]])).outFrames =
      connectedClient.outFrames ++
        [[Val.int 1, Val.int ((toInt64 (Val.int 7)).getD 0), Val.nil,
          Val.bool true]] ∧
     (Client.handleMessage connectedClient (Inbound.frame
        [Val.int 0, Val.int 7, Val.str "notify_create_message",
          Val.arr [Val.map [("id", Val.str "m1")]]])).events =
      connectedClient.events ++
        [("notify_create_message", Val.map [("id", Val.str "m1")])]) :=
  ⟨by decide, by decide,
    notification_ack connectedClient (by decide) (by decide) (Val.int 7)
      "notify_create_message" (Val.map [("id", Val.str "m1")]) []⟩

/-- C3: responses are matched by exact identifier equality — when a
handler is registered under the frame's identifier, the handler is
removed and exactly one completion carrying (error, result) is delivered,
every other identifier's entry being untouched; when no handler is
registered (late, duplicate or unknown response), the whole client state
is unchanged. -/
theorem handleResponse_correlation (c : Client) (idv errv resv : Val)
    (id : Int) (hid : toInt64 idv = some id) :
    (∀ h : ResponseHandler, rhLookup id c.responseHandlers = some h →
      Client.handleResponse c [Val.int 1, idv, errv, resv] =
        { c with
          responseHandlers := rhErase id c.responseHandlers
          completions := c.completions ++
            [(id, if errv ≠ Val.nil then RpcOutcome.failure errv
                  else RpcOutcome.success resv)] }) ∧
    rhLookup id (rhErase id c.responseHandlers) = none ∧
    (∀ j : Int, j ≠ id →
      rhLookup j (rhErase id c.responseHandlers) =
        rhLookup j c.responseHandlers) ∧
    (rhLookup id c.responseHandlers = none →
      Client.handleResponse c [Val.int 1, idv, errv, resv] = c) := by
  refine ⟨?_, rhLookup_erase_self id _, ?_, ?_⟩
  · intro h hfound
    exact handleResponse_found c hid errv resv hfound
  · intro j hj
    exact rhLookup_erase_ne hj _
  · intro hnone
    exact handleResponse_notfound c hid errv resv hnone

/-- C3, witness: the pending `get_me` call (identifier 1) is completed
and removed by the matching response. -/
theorem handleResponse_correlation_witness :
    toInt64 (Val.int 1) = some 1 ∧
    Client.handleResponse pendingClient
        [Val.int 1, Val.int 1, Val.nil, Val.str "ok"] =
      { pendingClient with
        responseHandlers := rhErase 1 pendingClient.responseHandlers
        completions := pendingClient.completions ++
          [(1, if (Val.nil : Val) ≠ Val.nil then RpcOutcome.failure Val.nil
               else RpcOutcome.success (Val.str "ok"))] } :=
  ⟨by decide,
    (handleResponse_correlation pendingClient (Val.int 1) Val.nil
        (Val.str "ok") 1 (by decide)).1
      { Method := "get_me" } (by decide)⟩

/-- C4: a call issued on a live client registers a handler under the
fresh identifier and returns it; the matching response frame with a nil
error field delivers exactly one success completion carrying the result
value unchanged, and the `select` of `Call` then returns that value with
a nil error. -/
theorem Call_success_roundtrip (c : Client) (hc : c.conn = true)
    (hs : c.sockClosed = false) (method : String) (params : List Val)
    (resv : Val) :
    (Client.call c method params).snd =
      CallStart.sent (int64wrap (c.msgID + 1)) ∧
    (Client.handleResponse (Client.call c method params).fst
        [Val.int 1, Val.int (int64wrap (c.msgID + 1)), Val.nil,
          resv]).completions =
      (Client.call c method params).fst.completions ++
        [(int64wrap (c.msgID + 1), RpcOutcome.success resv)] ∧
    Client.CallResult (Client.call c method params).snd
      (some (RpcOutcome.success resv)) = (some resv, none) := by
  have hsnd : (Client.call c method params).snd =
      CallStart.sent (int64wrap (c.msgID + 1)) := by
    simp [Client.call, hc, hs]
  have hid : toInt64 (Val.int (int64wrap (c.msgID + 1))) =
      some (int64wrap (c.msgID + 1)) := by
    rw [toInt64_int, int64wrap_idem]
  have hfound : rhLookup (int64wrap (c.msgID + 1))
      (Client.call c method params).fst.responseHandlers =
      some { Method := method } := by
    simp [Client.call, hc, hs, rhLookup_insert_self]
  refine ⟨hsnd, ?_, ?_⟩
  · rw [handleResponse_found _ hid Val.nil resv hfound]
    simp
  · rw [hsnd]
    rfl

/-- C4, witness: the spec's `get_me` scenario — the response
`[1, 1, nil, map[id:user123]]` round-trips the result unchanged. -/
theorem Call_success_roundtrip_witness :
    connectedClient.conn = true ∧ connectedClient.sockClosed = false ∧
    ((Client.call connectedClient "get_me" []).snd =
      CallStart.sent (int64wrap (connectedClient.msgID + 1)) ∧
    (Client.handleResponse (Client.call connectedClient "get_me" []).fst
        [Val.int 1, Val.int (int64wrap (connectedClient.msgID + 1)),
          Val.nil, Val.map [("id", Val.str "user123")]]).completions =
      (Client.call connectedClient "get_me" []).fst.completions ++
        [(int64wrap (connectedClient.msgID + 1),
          RpcOutcome.success (Val.map [("id", Val.str "user123")]))] ∧
    Client.CallResult (Client.call connectedClient "get_me" []).snd
      (some (RpcOutcome.success (Val.map [("id", Val.str "user123")]))) =
      (some (Val.map [("id", Val.str "user123")]), none)) :=
  ⟨by decide, by decide,
    Call_success_roundtrip connectedClient (by decide) (by decide)
      "get_me" [] (Val.map [("id", Val.str "user123")])⟩

/-- C5: a call issued on a live client whose matching response frame
carries a non-nil error field delivers exactly one failure completion
carrying that error payload, and the `select` of `Call` then returns no
result together with an `RPC error` wrapping exactly that payload. -/
theorem Call_remote_error (c : Client) (hc : c.conn = true)
    (hs : c.sockClosed = false) (method : String) (params : List Val)
    (errv resv : Val) (herr : errv ≠ Val.nil) :
    (Client.call c method params).snd =
      CallStart.sent (int64wrap (c.msgID + 1)) ∧
    (Client.handleResponse (Client.call c method params).fst
        [Val.int 1, Val.int (int64wrap (c.msgID + 1)), errv,
          resv]).completions =
      (Client.call c method params).fst.completions ++
        [(int64wrap (c.msgID + 1), RpcOutcome.failure errv)] ∧
    Client.CallResult (Client.call c method params).snd
      (some (RpcOutcome.failure errv)) =
      (none, some (CallErr.rpcError errv)) := by
  have hsnd : (Client.call c method params).snd =
      CallStart.sent (int64wrap (c.msgID + 1)) := by
    simp [Client.call, hc, hs]
  have hid : toInt64 (Val.int (int64wrap (c.msgID + 1))) =
      some (int64wrap (c.msgID + 1)) := by
    rw [toInt64_int, int64wrap_idem]
  have hfound : rhLookup (int64wrap (c.msgID + 1))
      (Client.call c method params).fst.responseHandlers =
      some { Method := method } := by
    simp [Client.call, hc, hs, rhLookup_insert_self]
  refine ⟨hsnd, ?_, ?_⟩
  · rw [handleResponse_found _ hid errv resv hfound]
    simp [herr]
  · rw [hsnd]
    rfl

/-- C5, witness: the spec's `bad_method` scenario — the response
`[1, 1, map[message:not found], nil]` produces an RPC error carrying
exactly that payload. -/
theorem Call_remote_error_witness :
    connectedClient.conn = true ∧ connectedClient.sockClosed = false ∧
    (Val.map [("message", Val.str "not found")]) ≠ Val.nil ∧
    ((Client.call connectedClient "bad_method" []).snd =
      CallStart.sent (int64wrap (connectedClient.msgID + 1)) ∧
    (Client.handleResponse (Client.call connectedClient "bad_method" []).fst
        [Val.int 1, Val.int (int64wrap (connectedClient.msgID + 1)),
          Val.map [("message", Val.str "not found")],
          Val.nil]).completions =
      (Client.call connectedClient "bad_method" []).fst.completions ++
        [(int64wrap (connectedClient.msgID + 1),
          RpcOutcome.failure (Val.map [("message", Val.str "not found")]))] ∧
    Client.CallResult (Client.call connectedClient "bad_method" []).snd
      (some (RpcOutcome.failure
        (Val.map [("message", Val.str "not found")]))) =
      (none, some (CallErr.rpcError
        (Val.map [("message", Val.str "not found")])))) :=
  ⟨by decide, by decide, by decide,
    Call_remote_error connectedClient (by decide) (by decide) "bad_method"
      [] (Val.map [("message", Val.str "not found")]) Val.nil (by decide)⟩

/-- C2, counterexample: after a `get_me` call times out (no outcome
delivered within the window, so `Call` returns the timeout error), the
`ResponseHandler` registered under identifier 1 is still in the pending
set — the timeout branch of `Call` performs no eviction, refuting the
claim that the entry is evicted at the timeout. -/
theorem c2_pending_not_evicted_on_timeout :
    Client.CallResult (Client.call connectedClient "get_me" []).snd none =
      (none, some CallErr.rpcTimeout) ∧
    rhLookup 1 pendingClient.responseHandlers =
      some { Method := "get_me" } := by
  decide

/-- C2, amended: a call with no matching response within the 30-second
window fails with the timeout error, but its `ResponseHandler` is NOT
evicted at the timeout — it stays registered; a response arriving later
for that identifier removes the entry and delivers exactly one completion
(into a buffered channel no longer read), and a duplicate late response
for the same identifier leaves the state entirely unchanged, so no panic
or double-completion can occur. -/
theorem call_timeout_keeps_pending (c : Client) (hc : c.conn = true)
    (hs : c.sockClosed = false) (method : String) (params : List Val)
    (resv : Val) :
    (Client.call c method params).snd =
      CallStart.sent (int64wrap (c.msgID + 1)) ∧
    Client.CallResult (Client.call c method params).snd none =
      (none, some CallErr.rpcTimeout) ∧
    callTimeoutSeconds = 30 ∧
    rhLookup (int64wrap (c.msgID + 1))
        (Client.call c method params).fst.responseHandlers =
      some { Method := method } ∧
    rhLookup (int64wrap (c.msgID + 1))
        (Client.handleResponse (Client.call c method params).fst
          [Val.int 1, Val.int (int64wrap (c.msgID + 1)), Val.nil,
            resv]).responseHandlers = none ∧
    (Client.handleResponse (Client.call c method params).fst
        [Val.int 1, Val.int (int64wrap (c.msgID + 1)), Val.nil,
          resv]).completions =
      (Client.call c method params).fst.completions ++
        [(int64wrap (c.msgID + 1), RpcOutcome.success resv)] ∧
    Client.handleResponse
        (Client.handleResponse (Client.call c method params).fst
          [Val.int 1, Val.int (int64wrap (c.msgID + 1)), Val.nil, resv])
        [Val.int 1, Val.int (int64wrap (c.msgID + 1)), Val.nil, resv] =
      Client.handleResponse (Client.call c method params).fst
        [Val.int 1, Val.int (int64wrap (c.msgID + 1)), Val.nil, resv] := by
  have hsnd : (Client.call c method params).snd =
      CallStart.sent (int64wrap (c.msgID + 1)) := by
    simp [Client.call, hc, hs]
  have hid : toInt64 (Val.int (int64wrap (c.msgID + 1))) =
      some (int64wrap (c.msgID + 1)) := by
    rw [toInt64_int, int64wrap_idem]
  have hfound : rhLookup (int64wrap (c.msgID + 1))
      (Client.call c method params).fst.responseHandlers =
      some { Method := method } := by
    simp [Client.call, hc, hs, rhLookup_insert_self]
  have hlate := handleResponse_found (Client.call c method params).fst hid
    Val.nil resv hfound
  have hgone : rhLookup (int64wrap (c.msgID + 1))
      (Client.handleResponse (Client.call c method params).fst
        [Val.int 1, Val.int (int64wrap (c.msgID + 1)), Val.nil,
          resv]).responseHandlers = none := by
    rw [hlate]
    exact rhLookup_erase_self _ _
  refine ⟨hsnd, by rw [hsnd]; rfl, rfl, hfound, hgone, ?_, ?_⟩
  · rw [hlate]
    simp
  · exact handleResponse_notfound _ hid Val.nil resv hgone

/-- C2, witness: the concrete timed-out `get_me` call; the late response
completes once and a duplicate is a no-op. -/
theorem call_timeout_keeps_pending_witness :
    connectedClient.conn = true ∧ connectedClient.sockClosed = false ∧
    ((Client.call connectedClient "get_me" []).snd =
      CallStart.sent (int64wrap (connectedClient.msgID + 1)) ∧
    Client.CallResult (Client.call connectedClient "get_me" []).snd none =
      (none, some CallErr.rpcTimeout) ∧
    callTimeoutSeconds = 30 ∧
    rhLookup (int64wrap (connectedClient.msgID + 1))
        (Client.call connectedClient "get_me" []).fst.responseHandlers =
      some { Method := "get_me" } ∧
    rhLookup (int64wrap (connectedClient.msgID + 1))
        (Client.handleResponse (Client.call connectedClient "get_me" []).fst
          [Val.int 1, Val.int (int64wrap (connectedClient.msgID + 1)),
            Val.nil, Val.str "late"]).responseHandlers = none ∧
    (Client.handleResponse (Client.call connectedClient "get_me" []).fst
        [Val.int 1, Val.int (int64wrap (connectedClient.msgID + 1)),
          Val.nil, Val.str "late"]).completions =
      (Client.call connectedClient "get_me" []).fst.completions ++
        [(int64wrap (connectedClient.msgID + 1),
          RpcOutcome.success (Val.str "late"))] ∧
    Client.handleResponse
        (Client.handleResponse (Client.call connectedClient "get_me" []).fst
          [Val.int 1, Val.int (int64wrap (connectedClient.msgID + 1)),
            Val.nil, Val.str "late"])
        [Val.int 1, Val.int (int64wrap (connectedClient.msgID + 1)),
          Val.nil, Val.str "late"] =
      Client.handleResponse (Client.call connectedClient "get_me" []).fst
        [Val.int 1, Val.int (int64wrap (connectedClient.msgID + 1)),
          Val.nil, Val.str "late"]) :=
  ⟨by decide, by decide,
    call_timeout_keeps_pending connectedClient (by decide) (by decide)
      "get_me" [] (Val.str "late")⟩

theorem iterCall_invariant (c : Client) (ms : Nat → String)
    (hc : c.conn = true) (hs : c.sockClosed = false) (h0 : c.msgID = 0) :
    ∀ n : Nat, (n : Int) < 2 ^ 63 →
      (iterCall c ms n).msgID = (n : Int) ∧
      (iterCall c ms n).conn = true ∧
      (iterCall c ms n).sockClosed = false := by
  intro n
  induction n with
  | zero =>
    intro _
    exact ⟨h0, hc, hs⟩
  | succ k ih =>
    intro hk
    have hk0 : (0 : Int) ≤ (k : Int) := Int.natCast_nonneg k
    have hk1 : ((k : Int)) < 2 ^ 63 := by
      push_cast at hk
      linarith
    obtain ⟨hm, hcn, hsn⟩ := ih hk1
    have hwrap : int64wrap ((iterCall c ms k).msgID + 1) = (k : Int) + 1 := by
      rw [hm]
      apply int64wrap_eq_self
      · have h63 : (0 : Int) ≤ 2 ^ 63 := by positivity
        linarith
      · push_cast at hk
        linarith
    refine ⟨?_, ?_, ?_⟩ <;> simp [iterCall, Client.call, hcn, hsn, hwrap]

/-- C6: on a freshly connected client, identifiers assigned by the
dispatcher over any session of fewer than 2^63 calls are exactly
1, 2, 3, …: the k-th call (0-based) is sent with identifier k+1, so the
first identifier is 1, no identifier is 0, and identifiers are strictly
monotonically increasing — hence unique and never reused within the
session. -/
theorem call_identifiers_monotone (c : Client) (ms : Nat → String)
    (hc : c.conn = true) (hs : c.sockClosed = false) (h0 : c.msgID = 0)
    (n : Nat) (hn : (n : Int) < 2 ^ 63) :
    (∀ k : Nat, k < n → callIdAt c ms k = (k : Int) + 1) ∧
    (∀ k : Nat, k < n →
      (Client.call (iterCall c ms k) (ms k) []).snd =
        CallStart.sent (callIdAt c ms k)) ∧
    (∀ k : Nat, k < n → callIdAt c ms k ≠ 0 ∧ 1 ≤ callIdAt c ms k) ∧
    (∀ j k : Nat, j < k → k < n →
      callIdAt c ms j < callIdAt c ms k) := by
  have hinv := iterCall_invariant c ms hc hs h0
  have hcast : ∀ k : Nat, k < n → ((k + 1 : Nat) : Int) < 2 ^ 63 := by
    intro k hk
    have : ((k + 1 : Nat) : Int) ≤ (n : Int) := by
      push_cast
      omega
    linarith
  have hidk : ∀ k : Nat, k < n → callIdAt c ms k = (k : Int) + 1 := by
    intro k hk
    have h1 := (hinv (k + 1) (hcast k hk)).1
    unfold callIdAt
    rw [h1]
    push_cast
    ring
  refine ⟨hidk, ?_, ?_, ?_⟩
  · intro k hk
    have hklt : (k : Int) < 2 ^ 63 := by
      have := hcast k hk
      push_cast at this ⊢
      linarith
    obtain ⟨hm, hcn, hsn⟩ := hinv k hklt
    have hwrap : int64wrap ((iterCall c ms k).msgID + 1) =
        (k : Int) + 1 := by
      rw [hm]
      apply int64wrap_eq_self
      · have h63 : (0 : Int) ≤ 2 ^ 63 := by positivity
        have := Int.natCast_nonneg k
        linarith
      · push_cast at hklt ⊢
        have := hcast k hk
        push_cast at this
        linarith
    rw [hidk k hk]
    simp [Client.call, hcn, hsn, hwrap]
  · intro k hk
    rw [hidk k hk]
    omega
  · intro j k hj hk
    rw [hidk j (lt_trans hj hk), hidk k hk]
    omega

/-- C6, witness: the first three calls of a session on a freshly
connected client are sent with identifiers 1, 2 and 3. -/
theorem call_identifiers_monotone_witness :
    connectedClient.conn = true ∧ connectedClient.sockClosed = false ∧
    connectedClient.msgID = 0 ∧ ((3 : Nat) : Int) < 2 ^ 63 ∧
    ((∀ k : Nat, k < 3 →
      callIdAt connectedClient (fun _ => "ping") k = (k : Int) + 1) ∧
    (∀ k : Nat, k < 3 →
      (Client.call (iterCall connectedClient (fun _ => "ping") k)
          "ping" []).snd =
        CallStart.sent (callIdAt connectedClient (fun _ => "ping") k)) ∧
    (∀ k : Nat, k < 3 →
      callIdAt connectedClient (fun _ => "ping") k ≠ 0 ∧
      1 ≤ callIdAt connectedClient (fun _ => "ping") k) ∧
    (∀ j k : Nat, j < k → k < 3 →
      callIdAt connectedClient (fun _ => "ping") j <
        callIdAt connectedClient (fun _ => "ping") k)) :=
  ⟨by decide, by decide, by decide, by decide,
    call_identifiers_monotone connectedClient (fun _ => "ping") (by decide)
      (by decide) (by decide) 3 (by decide)⟩

/-- C7, counterexample: a call issued after `Close` does not fail with
the literal `not connected` error — `Close` leaves the connection handle
in place, so `call` proceeds past the nil-connection check and fails with
the socket write error instead. -/
theorem c7_write_error_not_notconnected :
    (Client.call closedClient "get_me" []).snd =
      CallStart.writeFailed errClosedConn ∧
    errClosedConn ≠ "not connected" ∧
    closedClient.closed = true ∧ closedClient.conn = true := by
  decide

/-- C7, amended: `Close` on a connected client returns no error; a second
`Close` is a no-op that again returns no error; and every call issued
after `Close` fails fast — without blocking or panicking — but with the
socket write error (the literal `not connected` error is produced only
when no connection handle exists at all). -/
theorem close_idempotent_fail_fast (c : Client) (hc : c.conn = true)
    (hcl : c.closed = false) :
    (Client.Close c).snd = none ∧
    Client.Close (Client.Close c).fst = ((Client.Close c).fst, none) ∧
    (∀ (method : String) (params : List Val),
      (Client.call (Client.Close c).fst method params).snd =
        CallStart.writeFailed errClosedConn ∧
      Client.CallResult
          (Client.call (Client.Close c).fst method params).snd none =
        (none, some (CallErr.rpcError
          (Val.map [("message", Val.str errClosedConn)])))) := by
  have hclose : Client.Close c =
      ({c with closed := true, doneClosed := true, sockClosed := true},
        none) := by
    simp [Client.Close, hc, hcl]
  refine ⟨by rw [hclose], ?_, ?_⟩
  · rw [hclose]
    simp [Client.Close, hc]
  · intro method params
    have hsnd : (Client.call (Client.Close c).fst method params).snd =
        CallStart.writeFailed errClosedConn := by
      rw [hclose]
      simp [Client.call, hc]
    exact ⟨hsnd, by rw [hsnd]; rfl⟩

/-- C7, witness: a concrete connected client, closed once and twice, then
a call that fails with the write error. -/
theorem close_idempotent_fail_fast_witness :
    connectedClient.conn = true ∧ connectedClient.closed = false ∧
    ((Client.Close connectedClient).snd = none ∧
    Client.Close (Client.Close connectedClient).fst =
      ((Client.Close connectedClient).fst, none) ∧
    (∀ (method : String) (params : List Val),
      (Client.call (Client.Close connectedClient).fst method params).snd =
        CallStart.writeFailed errClosedConn ∧
      Client.CallResult
          (Client.call (Client.Close connectedClient).fst method
            params).snd none =
        (none, some (CallErr.rpcError
          (Val.map [("message", Val.str errClosedConn)]))))) :=
  ⟨by decide, by decide,
    close_idempotent_fail_fast connectedClient (by decide) (by decide)⟩

/-- C8: a MessagePack decode failure only emits a `decode_error` event —
the client state is otherwise untouched (connection not terminated) — and
the read loop goes on to process the remaining inbound messages. -/
theorem decode_error_continues (c : Client) (h : c.closed = false)
    (emsg : String) (rest : List SocketEvent) :
    Client.handleMessage c (Inbound.garbage emsg) =
      { c with events := c.events ++
          [("decode_error", Val.map [("error", Val.str emsg)])] } ∧
    Client.readLoop c
        (SocketEvent.received (Inbound.garbage emsg) :: rest) =
      Client.readLoop
        { c with events := c.events ++
            [("decode_error", Val.map [("error", Val.str emsg)])] }
        rest := by
  constructor
  · rfl
  · rw [Client.readLoop, if_neg (by simp [h])]
    rfl

/-- C8, witness: after one undecodable message, a following valid
response frame is still processed — it completes the pending `get_me`
call of `pendingClient`. -/
theorem decode_error_continues_witness :
    pendingClient.closed = false ∧
    (Client.handleMessage pendingClient (Inbound.garbage "bad msgpack") =
      { pendingClient with events := pendingClient.events ++
          [("decode_error", Val.map [("error", Val.str "bad msgpack")])] } ∧
    Client.readLoop pendingClient
        (SocketEvent.received (Inbound.garbage "bad msgpack") ::
          [SocketEvent.received (Inbound.frame
            [Val.int 1, Val.int 1, Val.nil, Val.str "ok"])]) =
      Client.readLoop
        { pendingClient with events := pendingClient.events ++
            [("decode_error", Val.map [("error", Val.str "bad msgpack")])] }
        [SocketEvent.received (Inbound.frame
          [Val.int 1, Val.int 1, Val.nil, Val.str "ok"])]) ∧
    (Client.readLoop pendingClient
        (SocketEvent.received (Inbound.garbage "bad msgpack") ::
          [SocketEvent.received (Inbound.frame
            [Val.int 1, Val.int 1, Val.nil, Val.str "ok"])])).completions =
      [(1, RpcOutcome.success (Val.str "ok"))] :=
  ⟨by decide,
    decode_error_continues pendingClient (by decide) "bad msgpack"
      [SocketEvent.received (Inbound.frame
        [Val.int 1, Val.int 1, Val.nil, Val.str "ok"])],
    by decide⟩

/-- C9: the `Messages` channel created by `NewClient` has capacity 100;
delivering a parsed notification never grows the buffer beyond that
capacity, a delivery into a full buffer drops the message (leaving the
buffer unchanged) rather than blocking, and every delivery either leaves
the buffer unchanged or appends exactly the one resolved message. -/
theorem message_queue_bounded (c : Client) (d : Val)
    (h : c.Messages.length ≤ messagesCap) :
    messagesCap = 100 ∧
    (Client.handleMessageNotification c d).Messages.length ≤ messagesCap ∧
    (c.Messages.length = messagesCap →
      (Client.handleMessageNotification c d).Messages = c.Messages) ∧
    ((Client.handleMessageNotification c d).Messages = c.Messages ∨
      (Client.handleMessageNotification c d).Messages =
        c.Messages ++ [c.resolvedMessage d]) := by
  rw [handleMessageNotification_spec]
  by_cases hcond : (c.resolvedMessage d).ID ≠ "" ∧
      c.Messages.length < messagesCap
  · rw [if_pos hcond]
    have h2 := hcond.2
    refine ⟨rfl, ?_, ?_, Or.inr rfl⟩
    · simp only [List.length_append, List.length_singleton]
      omega
    · intro heq
      omega
  · rw [if_neg hcond]
    exact ⟨rfl, h, fun _ => rfl, Or.inl rfl⟩

/-- C9, witness: delivering a valid message notification to the fresh
client appends it to the (capacity-100) buffer. -/
theorem message_queue_bounded_witness :
    NewClient.Messages.length ≤ messagesCap ∧
    (messagesCap = 100 ∧
    (Client.handleMessageNotification NewClient
        (Val.map [("id", Val.str "m1")])).Messages.length ≤ messagesCap ∧
    (NewClient.Messages.length = messagesCap →
      (Client.handleMessageNotification NewClient
          (Val.map [("id", Val.str "m1")])).Messages =
        NewClient.Messages) ∧
    ((Client.handleMessageNotification NewClient
        (Val.map [("id", Val.str "m1")])).Messages = NewClient.Messages ∨
      (Client.handleMessageNotification NewClient
          (Val.map [("id", Val.str "m1")])).Messages =
        NewClient.Messages ++
          [Client.resolvedMessage NewClient
            (Val.map [("id", Val.str "m1")])])) :=
  ⟨by decide,
    message_queue_bounded NewClient (Val.map [("id", Val.str "m1")])
      (by decide)⟩

/-- C10: every message in the `Messages` buffer has a non-empty `ID`
(delivery preserves the invariant), and a `notify_create_message`
notification whose payload is not a map or carries neither a
`message_id` nor an `id` key is never enqueued — the buffer is unchanged —
even though the generic notification event is still emitted. -/
theorem messages_nonempty_id (c : Client)
    (hq : ∀ m ∈ c.Messages, m.ID ≠ "") (d p idv : Val)
    (hp : lacksMessageId p = true) :
    (∀ m ∈ (Client.handleMessageNotification c d).Messages, m.ID ≠ "") ∧
    (Client.handleNotification c
        [Val.int 0, idv, Val.str "notify_create_message",
          Val.arr [p]]).Messages = c.Messages ∧
    (Client.handleNotification c
        [Val.int 0, idv, Val.str "notify_create_message",
          Val.arr [p]]).events =
      c.events ++ [("notify_create_message", p)] := by
  constructor
  · rw [handleMessageNotification_spec]
    by_cases hcond : (c.resolvedMessage d).ID ≠ "" ∧
        c.Messages.length < messagesCap
    · rw [if_pos hcond]
      intro m hm
      rcases List.mem_append.mp hm with hm1 | hm2
      · exact hq m hm1
      · have hmm : m = c.resolvedMessage d := by simpa using hm2
        rw [hmm]
        exact hcond.1
    · rw [if_neg hcond]
      exact hq
  · have hid0 : (Client.resolvedMessage
        (c.emit "notify_create_message" p) p).ID = "" := by
      rw [resolvedMessage_ID]
      exact parseMessage_ID_of_lacks hp
    have hc2 : Client.handleMessageNotification
        (c.emit "notify_create_message" p) p =
        c.emit "notify_create_message" p := by
      rw [handleMessageNotification_spec, if_neg]
      simp [hid0]
    have hred : Client.handleNotification c
        [Val.int 0, idv, Val.str "notify_create_message", Val.arr [p]] =
        (let c2 := Client.handleMessageNotification
            (c.emit "notify_create_message" p) p
         if c2.conn ∧ ¬c2.sockClosed then
           { c2 with outFrames := c2.outFrames ++
               [[Val.int 1, Val.int ((toInt64 idv).getD 0), Val.nil,
                 Val.bool true]] }
         else c2) := rfl
    rw [hred]
    dsimp only
    rw [hc2]
    split
    · exact ⟨rfl, rfl⟩
    · exact ⟨rfl, rfl⟩

/-- C10, witness: a payload with a `talk_id` but no identifier key is not
enqueued, while the generic event is still emitted; the delivery
invariant holds on the fresh client. -/
theorem messages_nonempty_id_witness :
    (∀ m ∈ NewClient.Messages, m.ID ≠ "") ∧
    lacksMessageId (Val.map [("talk_id", Val.str "t1")]) = true ∧
    ((∀ m ∈ (Client.handleMessageNotification NewClient
        (Val.int 5)).Messages, m.ID ≠ "") ∧
    (Client.handleNotification NewClient
        [Val.int 0, Val.int 3, Val.str "notify_create_message",
          Val.arr [Val.map [("talk_id", Val.str "t1")]]]).Messages =
      NewClient.Messages ∧
    (Client.handleNotification NewClient
        [Val.int 0, Val.int 3, Val.str "notify_create_message",
          Val.arr [Val.map [("talk_id", Val.str "t1")]]]).events =
      NewClient.events ++
        [("notify_create_message",
          Val.map [("talk_id", Val.str "t1")])]) :=
  ⟨by decide, by decide,
    messages_nonempty_id NewClient (by decide) (Val.int 5)
      (Val.map [("talk_id", Val.str "t1")]) (Val.int 3) (by decide)⟩

end DirectGo
